import Mathlib

/-!
# route53-updater: `main.go`

A shallow embedding of the dynamic-DNS updater of `src/main.go` and the
properties of its configuration loader, address selector and record updater.

Go strings are modelled by `String` (the byte loop of `strconv.ParseUint` runs
over the code points: every byte of a multi-byte character is `>= 0x80`, so a
non-ASCII character is a syntax error in both readings), Go `error` values from
the outside world by their message text, `int64` by `Int` with explicit
wrap-around, `uint64` by `Nat` with explicit `% 2^64`, a nil-able pointer or
slice result by `Option`, and a panicking function by `Except PanicValue`.
-/

namespace Route53Updater

/-! ## Data model -/

/-- Configuration record, `type Route32Config struct` (main.go:15-19). -/
structure Route32Config where
  HostedZoneID : String
  RecordName : String
  TTL : Int
  deriving DecidableEq, Repr

/-- The two sentinel errors of `strconv`: `ErrSyntax` and `ErrRange`. -/
inductive StrconvErr where
  | ErrSyntax
  | ErrRange
  deriving DecidableEq, Repr

/-- Go standard library `strconv.NumError`: the failing function, the input
text and the sentinel error. -/
structure NumError where
  Func : String
  Num : String
  Err : StrconvErr
  deriving DecidableEq, Repr

/-- Values the program panics with: an `error` built by `fmt.Errorf` (or handed
to `session.Must`), carried as its message, or the `*strconv.NumError` of a
failed `ParseInt`. -/
inductive PanicValue where
  | error (msg : String)
  | numError (e : NumError)
  deriving DecidableEq, Repr

/-- The process environment as `os.LookupEnv` sees it: `none` for a variable
that is not set, `some v` for one that is set to `v` (possibly empty). -/
abbrev Env := String → Option String

/-! ## Configuration loader -/

/-- Go standard library `os.LookupEnv`: the value and whether the variable is
present; the value is the empty string when it is not. -/
def LookupEnv (env : Env) (key : String) : String × Bool :=
  match env key with
  | some v => (v, true)
  | none => ("", false)

/-- Source `getEnv` (main.go:21-28). -/
def getEnv (env : Env) (key defaultValue : String) : Except PanicValue String :=
  match LookupEnv env key with
  | (value, present) =>
    if present then
      .ok value
    else if value = "" ∧ defaultValue = "" then
      .error (.error ("missing mandatory env " ++ key))
    else
      .ok defaultValue

/-- `2^64`, the modulus of `uint64` arithmetic. -/
def twoPow64 : Nat := 18446744073709551616

/-- `maxUint64`. -/
def maxUint64 : Nat := 18446744073709551615

/-- Go conversion `int64(u)` of a `uint64`: reinterpretation in two's complement. -/
def int64OfUint64 (u : Nat) : Int :=
  if u % twoPow64 < 9223372036854775808 then ((u % twoPow64 : Nat) : Int)
  else ((u % twoPow64 : Nat) : Int) - 18446744073709551616

/-- Go unary minus on `int64`, wrapping at `-2^63`. -/
def negInt64 (n : Int) : Int :=
  (-n + 9223372036854775808) % 18446744073709551616 - 9223372036854775808

/-- Go `strconv.lower`: `c | ('x' - 'X')` on the code of `c`. -/
def lower (c : Char) : Nat := c.toNat ||| 32

/-- The `switch` of the digit loop of Go `strconv.ParseUint` with `base0` false:
the value of the digit or letter `c`, `none` in the `default` case. -/
def digitValue (c : Char) : Option Nat :=
  if 48 ≤ c.toNat ∧ c.toNat ≤ 57 then some (c.toNat - 48)
  else if 97 ≤ lower c ∧ lower c ≤ 122 then some (lower c - 97 + 10)
  else none

/-- The digit loop of Go `strconv.ParseUint` at base 10 and bit size 64 (the
arguments `LoadConfig` passes), started with accumulator `n`; `s0` is the text
reported in the error. Returns the pair `(value, err)` as Go does. -/
def ParseUint.loop (s0 : String) : List Char → Nat → Nat × Option NumError
  | [], n => (n, none)
  | c :: cs, n =>
    let cutoff := maxUint64 / 10 + 1
    let maxVal := maxUint64
    match digitValue c with
    | none => (0, some ⟨"ParseUint", s0, .ErrSyntax⟩)
    | some d =>
      if d ≥ 10 then (0, some ⟨"ParseUint", s0, .ErrSyntax⟩)
      else if n ≥ cutoff then (maxVal, some ⟨"ParseUint", s0, .ErrRange⟩)
      else
        let n10 := n * 10 % twoPow64
        let n1 := (n10 + d) % twoPow64
        if n1 < n10 ∨ n1 > maxVal then (maxVal, some ⟨"ParseUint", s0, .ErrRange⟩)
        else ParseUint.loop s0 cs n1

/-- Go standard library `strconv.ParseUint(s, 10, 64)`. -/
def ParseUint (s : String) : Nat × Option NumError :=
  if s = "" then (0, some ⟨"ParseUint", s, .ErrSyntax⟩)
  else ParseUint.loop s s.data 0

/-- The signed range check that ends Go `strconv.ParseInt` at bit size 64, for
the unsigned magnitude `un` and the sign flag `neg`; `s0` is the whole input. -/
def ParseInt.checkRange (s0 : String) (neg : Bool) (un : Nat) : Int × Option NumError :=
  let cutoff : Nat := 9223372036854775808
  if neg = false ∧ un ≥ cutoff then
    (int64OfUint64 (cutoff - 1), some ⟨"ParseInt", s0, .ErrRange⟩)
  else if neg = true ∧ un > cutoff then
    (negInt64 (int64OfUint64 cutoff), some ⟨"ParseInt", s0, .ErrRange⟩)
  else
    let n := int64OfUint64 un
    (if neg then negInt64 n else n, none)

/-- Go standard library `strconv.ParseInt(s, 10, 64)`: an optional sign, then
`ParseUint` on the rest and the signed range check. Returns `(value, err)` as
Go does. -/
def ParseInt (s : String) : Int × Option NumError :=
  match s.data with
  | [] => (0, some ⟨"ParseInt", s, .ErrSyntax⟩)
  | c :: cs =>
    let neg : Bool := if c = '+' then false else if c = '-' then true else false
    let rest : String := if c = '+' then ⟨cs⟩ else if c = '-' then ⟨cs⟩ else s
    match ParseUint rest with
    | (un, some e) =>
      if e.Err ≠ .ErrRange then (0, some ⟨"ParseInt", s, e.Err⟩)
      else ParseInt.checkRange s neg un
    | (un, none) => ParseInt.checkRange s neg un

/-- Source `LoadConfig` (main.go:30-40): the TTL is resolved and parsed first,
then the two mandatory variables, in field order. -/
def LoadConfig (env : Env) : Except PanicValue Route32Config :=
  match getEnv env "TTL" "60" with
  | .error p => .error p
  | .ok text =>
    match ParseInt text with
    | (_, some err) => .error (.numError err)
    | (ttl, none) =>
      match getEnv env "HOSTED_ZONE_ID" "" with
      | .error p => .error p
      | .ok hostedZoneID =>
        match getEnv env "RECORD_NAME" "" with
        | .error p => .error p
        | .ok recordName =>
          .ok { HostedZoneID := hostedZoneID, RecordName := recordName, TTL := ttl }

/-- An environment given by a finite list of `(name, value)` settings. -/
def envOf (vars : List (String × String)) : Env := fun key => vars.lookup key

/-! ## Address selector -/

/-- Go `net.IP`, a byte slice: 4 bytes for IPv4, 16 for IPv6. -/
abbrev IP := List Nat

/-- Go `net.IPNet`: an address and its network mask. -/
structure IPNet where
  IP : IP
  Mask : List Nat
  deriving DecidableEq, Repr

/-- Go `net.IPAddr`: an address and an IPv6 zone. -/
structure IPAddr where
  IP : IP
  Zone : String
  deriving DecidableEq, Repr

/-- Go interface `net.Addr` by dynamic type: the `*net.IPNet` that the type
assertion of `getLocalIP` accepts, or another implementation such as
`*net.IPAddr`. -/
inductive Addr where
  | IPNet (n : IPNet)
  | IPAddr (a : IPAddr)
  deriving DecidableEq, Repr

/-- Go `net.isZeros`. -/
def isZeros (p : List Nat) : Bool := p.all (fun b => b = 0)

/-- Go standard library `net.IP.To4`: the 4-byte form of an IPv4 address or of
an IPv4-mapped IPv6 address, `none` (Go `nil`) for anything else. -/
def IP.To4 (ip : IP) : Option IP :=
  if ip.length = 4 then some ip
  else if ip.length = 16 ∧ isZeros (ip.take 10) = true ∧ ip.getD 10 0 = 255 ∧ ip.getD 11 0 = 255 then
    some ((ip.drop 12).take 4)
  else none

/-- Go `net.v4InV6Prefix`. -/
def v4InV6Prefix : List Nat := [0, 0, 0, 0, 0, 0, 0, 0, 0, 0, 255, 255]

/-- Go `net.IPv6loopback`, the address `::1`. -/
def IPv6loopback : IP := [0, 0, 0, 0, 0, 0, 0, 0, 0, 0, 0, 0, 0, 0, 0, 1]

/-- Go standard library `net.IP.Equal`: an IPv4 address and its IPv4-mapped
IPv6 form are equal. -/
def IP.Equal (ip x : IP) : Bool :=
  if ip.length = x.length then decide (ip = x)
  else if ip.length = 4 ∧ x.length = 16 then
    decide (x.take 12 = v4InV6Prefix) && decide (ip = x.drop 12)
  else if ip.length = 16 ∧ x.length = 4 then
    decide (ip.take 12 = v4InV6Prefix) && decide (ip.drop 12 = x)
  else false

/-- Go standard library `net.IP.IsLoopback`: `127.0.0.0/8` or `::1`. -/
def IP.IsLoopback (ip : IP) : Bool :=
  match IP.To4 ip with
  | some ip4 => decide (ip4.getD 0 0 = 127)
  | none => IP.Equal ip IPv6loopback

/-- Go standard library `net.IP.String` where `To4` succeeds: dotted decimal of
the four bytes. The remaining texts (`<nil>`, `?` with hex digits, the IPv6
form) are those of `other`. -/
def IP.String (other : IP → String) (ip : IP) : String :=
  match IP.To4 ip with
  | some p4 =>
    toString (p4.getD 0 0) ++ "." ++ toString (p4.getD 1 0) ++ "." ++
      toString (p4.getD 2 0) ++ "." ++ toString (p4.getD 3 0)
  | none => other ip

/-- The `for` loop of source `getLocalIP` (main.go:49-54). -/
def getLocalIP.loop (other : IP → String) : List Addr → Except String String
  | [] => .error "unable to determine local IP"
  | addr :: addrs =>
    match addr with
    | .IPNet ipNet =>
      if !IP.IsLoopback ipNet.IP && (IP.To4 ipNet.IP).isSome then
        .ok (IP.String other ipNet.IP)
      else getLocalIP.loop other addrs
    | _ => getLocalIP.loop other addrs

/-! ## Record updater -/

/-- AWS SDK `route53.ResourceRecord`. -/
structure ResourceRecord where
  Value : Option String
  deriving DecidableEq, Repr

/-- AWS SDK `route53.ResourceRecordSet`, the fields the program sets (`Type_` is
the Go field `Type`); every
other field is left nil. -/
structure ResourceRecordSet where
  Name : Option String
  Type_ : Option String
  TTL : Option Int
  ResourceRecords : List ResourceRecord
  deriving DecidableEq, Repr

/-- AWS SDK `route53.Change`. -/
structure Change where
  Action : Option String
  ResourceRecordSet : Option ResourceRecordSet
  deriving DecidableEq, Repr

/-- AWS SDK `route53.ChangeBatch`; `Comment` is left nil by the program. -/
structure ChangeBatch where
  Changes : List Change
  Comment : Option String
  deriving DecidableEq, Repr

/-- AWS SDK `route53.ChangeResourceRecordSetsInput`. -/
structure ChangeResourceRecordSetsInput where
  HostedZoneId : Option String
  ChangeBatch : Option ChangeBatch
  deriving DecidableEq, Repr

/-! ## The outside world and the run of `main` -/

/-- What the process observes from outside: the environment, the result of
`net.InterfaceAddrs()`, the result of `session.NewSession()` and the answer of
the provider to a `ChangeResourceRecordSets` call (`none` is a nil error), and
the text `net.IP.String` gives for an address that is not IPv4. -/
structure World where
  env : Env
  InterfaceAddrs : Except String (List Addr)
  NewSession : Except String Unit
  ChangeResourceRecordSets : ChangeResourceRecordSetsInput → Option String
  ipText : IP → String

/-- Observable actions of a run, in program order. -/
inductive Event where
  | InterfaceAddrs
  | NewSession
  | ChangeResourceRecordSets (input : ChangeResourceRecordSetsInput)
  | LogPrintf (line : String)
  | LogFatalf (line : String)
  | Stdout (line : String)
  deriving DecidableEq, Repr

/-- How a run ends: `main` returns (exit status 0), `log.Fatalf` exits with
status 1, or a panic unwinds the process. -/
inductive Exit where
  | success
  | fatal
  | panic (v : PanicValue)
  deriving DecidableEq, Repr

/-- Source `getLocalIP` (main.go:43-55): the events performed and the pair
`(string, error)` as an `Except`. -/
def getLocalIP (w : World) : List Event × Except String String :=
  match w.InterfaceAddrs with
  | .error err => ([.InterfaceAddrs], .error err)
  | .ok addrs => ([.InterfaceAddrs], getLocalIP.loop w.ipText addrs)

/-- The `input` literal of source `updateRoute53Record` (main.go:62-81). -/
def updateRoute53Record.input (hostedZoneID recordName ip : String) (ttl : Int) :
    ChangeResourceRecordSetsInput :=
  { HostedZoneId := some hostedZoneID
    ChangeBatch := some
      { Changes := [
          { Action := some "UPSERT"
            ResourceRecordSet := some
              { Name := some recordName
                Type_ := some "A"
                TTL := some ttl
                ResourceRecords := [ { Value := some ip } ] } } ]
        Comment := none } }

/-- Source `updateRoute53Record` (main.go:58-89): the events performed and
either the panic of `session.Must` or the returned `error` (`none` is nil). -/
def updateRoute53Record (w : World) (hostedZoneID recordName ip : String) (ttl : Int) :
    List Event × Except PanicValue (Option String) :=
  match w.NewSession with
  | .error err => ([.NewSession], .error (.error err))
  | .ok _ =>
    let input := updateRoute53Record.input hostedZoneID recordName ip ttl
    match w.ChangeResourceRecordSets input with
    | some err => ([.NewSession, .ChangeResourceRecordSets input], .ok (some err))
    | none => ([.NewSession, .ChangeResourceRecordSets input], .ok none)

/-- Source `main` (main.go:91-107): the trace of events and how the run ends. -/
def main (w : World) : List Event × Exit :=
  match LoadConfig w.env with
  | .error p => ([], .panic p)
  | .ok config =>
    match getLocalIP w with
    | (t1, .error err) =>
      (t1 ++ [.LogFatalf ("Failed to get local IP: " ++ err)], .fatal)
    | (t1, .ok ip) =>
      let t2 := t1 ++ [.LogPrintf ("Local IP: " ++ ip)]
      match updateRoute53Record w config.HostedZoneID config.RecordName ip config.TTL with
      | (t3, .error p) => (t2 ++ t3, .panic p)
      | (t3, .ok (some err)) =>
        (t2 ++ t3 ++ [.LogFatalf ("Failed to update Route 53 DNS record: " ++ err)], .fatal)
      | (t3, .ok none) =>
        (t2 ++ t3 ++ [.Stdout ("Successfully updated Route 53 DNS record for " ++
          config.RecordName ++ " to " ++ ip ++ " with TTL " ++ toString config.TTL ++ "\n")],
          .success)

/-- The provider calls of a trace, in order. -/
def providerCalls : List Event → List ChangeResourceRecordSetsInput
  | [] => []
  | .ChangeResourceRecordSets input :: es => input :: providerCalls es
  | _ :: es => providerCalls es

/-! ## Predicates used to state the properties -/

/-- A decimal digit `0`..`9`. -/
def isDecimalDigit (c : Char) : Bool := decide (48 ≤ c.toNat ∧ c.toNat ≤ 57)

/-- A base-10 integer text: an optional sign followed by one or more decimal
digits. -/
def isBase10Integer (s : String) : Bool :=
  match s.data with
  | [] => false
  | c :: cs =>
    if c = '+' ∨ c = '-' then !cs.isEmpty && cs.all isDecimalDigit
    else (c :: cs).all isDecimalDigit

/-- An interface address that is an IP network address (`*net.IPNet`),
representable as IPv4 and not a loopback address. -/
def usable : Addr → Bool
  | .IPNet n => (IP.To4 n.IP).isSome && !IP.IsLoopback n.IP
  | _ => false

/-- The textual form of the IP of an interface address, as `net.IP.String`
gives it. -/
def addrText (other : IP → String) : Addr → String
  | .IPNet n => IP.String other n.IP
  | .IPAddr a => IP.String other a.IP

/-! ## Sample inputs -/

/-- Environment with `TTL` set to the empty string and both mandatory variables set. -/
def envEmptyTTL : Env :=
  envOf [("HOSTED_ZONE_ID", "Z1"), ("RECORD_NAME", "example.com"), ("TTL", "")]

/-- Environment with `HOSTED_ZONE_ID` set to the empty string. -/
def envEmptyZone : Env :=
  envOf [("HOSTED_ZONE_ID", ""), ("RECORD_NAME", "example.com")]

/-- Environment with both mandatory variables set to the empty string. -/
def envEmptyMandatory : Env :=
  envOf [("HOSTED_ZONE_ID", ""), ("RECORD_NAME", "")]

/-- Environment with `TTL` set to `-5`. -/
def envNegativeTTL : Env :=
  envOf [("HOSTED_ZONE_ID", "Z1"), ("RECORD_NAME", "example.com"), ("TTL", "-5")]

/-- Environment with the two mandatory variables only. -/
def envDefaultTTL : Env :=
  envOf [("HOSTED_ZONE_ID", "Z1"), ("RECORD_NAME", "example.com")]

/-- Environment with a `TTL` that is not a number. -/
def envBadTTL : Env :=
  envOf [("HOSTED_ZONE_ID", "Z1"), ("RECORD_NAME", "example.com"), ("TTL", "1h")]

/-- Interface addresses of a host with an IPv4 loopback, an IPv6 loopback, a
link-local IPv6 address and two private IPv4 addresses. -/
def hostAddrs : List Addr :=
  [ .IPNet ⟨[127, 0, 0, 1], [255, 0, 0, 0]⟩,
    .IPNet ⟨IPv6loopback, []⟩,
    .IPNet ⟨[254, 128, 0, 0, 0, 0, 0, 0, 0, 0, 0, 0, 0, 0, 0, 9], []⟩,
    .IPNet ⟨[192, 168, 1, 7], [255, 255, 255, 0]⟩,
    .IPNet ⟨[10, 0, 0, 2], [255, 0, 0, 0]⟩ ]

/-- Interface addresses of a host with loopback and IPv6-only addresses. -/
def loopbackOnlyAddrs : List Addr :=
  [ .IPNet ⟨[127, 0, 0, 1], [255, 0, 0, 0]⟩,
    .IPNet ⟨IPv6loopback, []⟩,
    .IPNet ⟨[254, 128, 0, 0, 0, 0, 0, 0, 0, 0, 0, 0, 0, 0, 0, 9], []⟩ ]

/-- A run in which everything succeeds. -/
def goodWorld : World :=
  { env := envDefaultTTL
    InterfaceAddrs := .ok hostAddrs
    NewSession := .ok ()
    ChangeResourceRecordSets := fun _ => none
    ipText := fun _ => "?" }

/-- A run on a host with no usable address. -/
def loopbackOnlyWorld : World :=
  { goodWorld with InterfaceAddrs := .ok loopbackOnlyAddrs }

/-- A run in which the provider rejects the change. -/
def rejectingWorld : World :=
  { goodWorld with ChangeResourceRecordSets := fun _ => some "AccessDenied" }

/-- A run with a malformed `TTL`. -/
def badConfigWorld : World :=
  { goodWorld with env := envBadTTL }

/-! ## `getEnv` -/

theorem getEnv_of_present (env : Env) (key d v : String) (h : env key = some v) :
    getEnv env key d = .ok v := by
  simp [getEnv, LookupEnv, h]

theorem getEnv_of_absent (env : Env) (key d : String) (h : env key = none) (hd : d ≠ "") :
    getEnv env key d = .ok d := by
  simp [getEnv, LookupEnv, h, hd]

theorem getEnv_of_absent_no_default (env : Env) (key : String) (h : env key = none) :
    getEnv env key "" = .error (.error ("missing mandatory env " ++ key)) := by
  simp [getEnv, LookupEnv, h]

/-- The code fails exactly when the variable is absent and the default is empty. -/
theorem getEnv_error_iff (env : Env) (key d : String) :
    (∃ p, getEnv env key d = .error p) ↔ env key = none ∧ d = "" := by
  cases h : env key with
  | some v => simp [getEnv, LookupEnv, h]
  | none =>
    by_cases hd : d = ""
    · simp [getEnv, LookupEnv, h, hd]
    · simp [getEnv, LookupEnv, h, hd]

/-- C1 (code evaluated at the failing input): with `TTL` present and set to the
empty string, `getEnv "TTL" "60"` returns the empty string, not the default `60`. -/
theorem getEnv_empty_value_not_defaulted :
    getEnv envEmptyTTL "TTL" "60" = .ok "" ∧ getEnv envEmptyTTL "TTL" "60" ≠ .ok "60" := by
  constructor
  · rfl
  · intro h
    have h2 : getEnv envEmptyTTL "TTL" "60" = .ok "" := rfl
    rw [h2] at h
    exact absurd (Except.ok.inj h) (by decide)

/-- C2 (code evaluated at the failing input): with `HOSTED_ZONE_ID` present and
set to the empty string and an empty default, no value is resolved, yet `getEnv`
returns the empty string instead of failing. -/
theorem getEnv_empty_value_empty_default_no_failure :
    envEmptyZone "HOSTED_ZONE_ID" = some "" ∧
      getEnv envEmptyZone "HOSTED_ZONE_ID" "" = .ok "" := by
  exact ⟨rfl, rfl⟩

/-- C3 (code evaluated at the failing input): with both mandatory variables
present and set to the empty string, `LoadConfig` returns a configuration whose
`HostedZoneID` and `RecordName` are empty. -/
theorem LoadConfig_empty_mandatory_accepted :
    LoadConfig envEmptyMandatory = .ok { HostedZoneID := "", RecordName := "", TTL := 60 } := by
  rfl

/-! ## `strconv.ParseInt` -/

theorem digitValue_lt_ten (c : Char) (d : Nat) (h : digitValue c = some d) (hd : d < 10) :
    isDecimalDigit c = true := by
  unfold digitValue at h
  split_ifs at h with h1 h2
  · simp [isDecimalDigit, h1]
  · simp only [Option.some.injEq] at h
    omega

/-- The three ways the digit loop ends: a value below `2^64` after reading only
decimal digits, a syntax error, or a range error with the value `maxUint64`. -/
theorem ParseUint.loop_cases (s0 : String) (cs : List Char) : ∀ n : Nat, n < twoPow64 →
    (∃ m, ParseUint.loop s0 cs n = (m, none) ∧ cs.all isDecimalDigit = true ∧ m < twoPow64) ∨
    ParseUint.loop s0 cs n = (0, some ⟨"ParseUint", s0, .ErrSyntax⟩) ∨
    ParseUint.loop s0 cs n = (maxUint64, some ⟨"ParseUint", s0, .ErrRange⟩) := by
  induction cs with
  | nil =>
    intro n hn
    exact Or.inl ⟨n, rfl, rfl, hn⟩
  | cons c cs ih =>
    intro n hn
    simp only [ParseUint.loop]
    cases hdv : digitValue c with
    | none => exact Or.inr (Or.inl rfl)
    | some d =>
      simp only []
      by_cases hd : d ≥ 10
      · rw [if_pos hd]; exact Or.inr (Or.inl rfl)
      · rw [if_neg hd]
        by_cases hc : n ≥ maxUint64 / 10 + 1
        · rw [if_pos hc]; exact Or.inr (Or.inr rfl)
        · rw [if_neg hc]
          by_cases ho : (n * 10 % twoPow64 + d) % twoPow64 < n * 10 % twoPow64 ∨
              (n * 10 % twoPow64 + d) % twoPow64 > maxUint64
          · rw [if_pos ho]; exact Or.inr (Or.inr rfl)
          · rw [if_neg ho]
            have hlt : (n * 10 % twoPow64 + d) % twoPow64 < twoPow64 :=
              Nat.mod_lt _ (by decide)
            rcases ih _ hlt with ⟨m, h1, h2, h3⟩ | h | h
            · refine Or.inl ⟨m, h1, ?_, h3⟩
              have hdig := digitValue_lt_ten c d hdv (by omega)
              simp [List.all_cons, hdig, h2]
            · exact Or.inr (Or.inl h)
            · exact Or.inr (Or.inr h)

theorem ParseUint_cases (s : String) :
    (∃ m, ParseUint s = (m, none) ∧ s.data ≠ [] ∧ s.data.all isDecimalDigit = true ∧
      m < twoPow64) ∨
    ParseUint s = (0, some ⟨"ParseUint", s, .ErrSyntax⟩) ∨
    ParseUint s = (maxUint64, some ⟨"ParseUint", s, .ErrRange⟩) := by
  unfold ParseUint
  by_cases hs : s = ""
  · rw [if_pos hs]; exact Or.inr (Or.inl rfl)
  · rw [if_neg hs]
    have hne : s.data ≠ [] := by
      intro h
      apply hs
      cases s
      simp_all
    rcases ParseUint.loop_cases s s.data 0 (by decide) with ⟨m, h1, h2, h3⟩ | h | h
    · exact Or.inl ⟨m, h1, hne, h2, h3⟩
    · exact Or.inr (Or.inl h)
    · exact Or.inr (Or.inr h)

theorem ParseInt.checkRange_ok (s0 : String) (neg : Bool) (un : Nat) (v : Int)
    (hun : un < twoPow64) (h : ParseInt.checkRange s0 neg un = (v, none)) :
    -9223372036854775808 ≤ v ∧ v ≤ 9223372036854775807 ∧ (neg = false → 0 ≤ v) := by
  unfold twoPow64 at hun
  have hmod : un % 18446744073709551616 = un := Nat.mod_eq_of_lt hun
  cases neg with
  | false =>
    by_cases h1 : un ≥ 9223372036854775808
    · simp [ParseInt.checkRange, h1] at h
    · have h1b : un < 9223372036854775808 := by omega
      simp only [ParseInt.checkRange, true_and, if_neg h1, Bool.false_eq_true, false_and,
        if_false, Prod.mk.injEq, and_true, int64OfUint64, twoPow64, hmod, if_pos h1b] at h
      omega
  | true =>
    by_cases h2 : un > 9223372036854775808
    · simp [ParseInt.checkRange, h2] at h
    · simp only [ParseInt.checkRange, true_and, if_neg h2, Bool.true_eq_false, false_and,
        if_false, if_true, Prod.mk.injEq, and_true, int64OfUint64, twoPow64, hmod, negInt64] at h
      refine ⟨?_, ?_, by simp⟩ <;> split_ifs at h <;> omega

theorem ParseInt.checkRange_maxUint64 (s0 : String) (neg : Bool) :
    (ParseInt.checkRange s0 neg maxUint64).2 = some ⟨"ParseInt", s0, .ErrRange⟩ := by
  cases neg <;> rfl

/-- The end of `ParseInt` once the sign is split off: `rest` is what `ParseUint`
reads. -/
theorem ParseInt.tail_ok (s rest : String) (neg : Bool) (v : Int)
    (h : (match ParseUint rest with
      | (un, some e) =>
        if e.Err ≠ .ErrRange then ((0 : Int), some (⟨"ParseInt", s, e.Err⟩ : NumError))
        else ParseInt.checkRange s neg un
      | (un, none) => ParseInt.checkRange s neg un) = (v, none)) :
    rest.data ≠ [] ∧ rest.data.all isDecimalDigit = true ∧
      -9223372036854775808 ≤ v ∧ v ≤ 9223372036854775807 ∧ (neg = false → 0 ≤ v) := by
  rcases ParseUint_cases rest with ⟨m, h1, hne, hall, hlt⟩ | h1 | h1
  · rw [h1] at h
    exact ⟨hne, hall, ParseInt.checkRange_ok s neg m v hlt h⟩
  · rw [h1] at h
    simp at h
  · rw [h1] at h
    simp only [ne_eq, not_true_eq_false, if_false] at h
    have h2 := ParseInt.checkRange_maxUint64 s neg
    rw [h] at h2
    simp at h2

/-- A successful `ParseInt` read an optional sign followed by one or more
decimal digits, returns a value in the `int64` range, and returns a negative
value only for a text that starts with `-`. -/
theorem ParseInt_ok (s : String) (v : Int) (h : ParseInt s = (v, none)) :
    isBase10Integer s = true ∧ -9223372036854775808 ≤ v ∧ v ≤ 9223372036854775807 ∧
      (s.data.head? ≠ some '-' → 0 ≤ v) := by
  unfold ParseInt at h
  cases hs : s.data with
  | nil =>
    rw [hs] at h
    simp at h
  | cons c cs =>
    rw [hs] at h
    simp only [] at h
    by_cases hp : c = '+'
    · subst hp
      simp only [if_true] at h
      obtain ⟨hne, hall, hlo, hhi, hpos⟩ := ParseInt.tail_ok s ⟨cs⟩ false v h
      refine ⟨?_, hlo, hhi, fun _ => hpos rfl⟩
      simp only [isBase10Integer, hs, true_or, if_true]
      cases cs with
      | nil => exact absurd rfl hne
      | cons x xs => simpa using hall
    · by_cases hm : c = '-'
      · subst hm
        simp only [if_true, if_neg hp] at h
        obtain ⟨hne, hall, hlo, hhi, _⟩ := ParseInt.tail_ok s ⟨cs⟩ true v h
        refine ⟨?_, hlo, hhi, fun hh => absurd rfl hh⟩
        simp only [isBase10Integer, hs, or_true, if_true]
        cases cs with
        | nil => exact absurd rfl hne
        | cons x xs => simpa using hall
      · simp only [if_neg hp, if_neg hm] at h
        obtain ⟨_, hall, hlo, hhi, hpos⟩ := ParseInt.tail_ok s s false v h
        refine ⟨?_, hlo, hhi, fun _ => hpos rfl⟩
        rw [hs] at hall
        simp only [isBase10Integer, hs, hp, hm, or_self, if_false]
        exact hall

/-! ## `LoadConfig` -/

/-- `LoadConfig` returns a configuration exactly when the three lookups and the
parse of the TTL text all succeed. -/
theorem LoadConfig_ok_iff (env : Env) (cfg : Route32Config) :
    LoadConfig env = .ok cfg ↔
      ∃ text, getEnv env "TTL" "60" = .ok text ∧ ParseInt text = (cfg.TTL, none) ∧
        getEnv env "HOSTED_ZONE_ID" "" = .ok cfg.HostedZoneID ∧
        getEnv env "RECORD_NAME" "" = .ok cfg.RecordName := by
  unfold LoadConfig
  cases h1 : getEnv env "TTL" "60" with
  | error p => simp
  | ok text =>
    rcases hp : ParseInt text with ⟨ttl, err⟩
    cases err with
    | some e =>
      simp only [Except.ok.injEq, exists_eq_left', hp, Prod.mk.injEq]
      simp
    | none =>
      cases h2 : getEnv env "HOSTED_ZONE_ID" "" with
      | error p => simp [hp]
      | ok z =>
        cases h3 : getEnv env "RECORD_NAME" "" with
        | error p => simp [hp]
        | ok r =>
          rcases cfg with ⟨cz, cr, ct⟩
          simp only [Except.ok.injEq, Route32Config.mk.injEq, exists_eq_left', hp,
            Prod.mk.injEq, and_true]
          constructor
          · rintro ⟨rfl, rfl, rfl⟩
            exact ⟨rfl, rfl, rfl⟩
          · rintro ⟨rfl, rfl, rfl⟩
            exact ⟨rfl, rfl, rfl⟩

/-- C4 (counterexample): with `TTL` set to `-5`, `LoadConfig` returns a
configuration whose TTL is `-5`, which is negative. -/
theorem LoadConfig_negative_TTL_accepted :
    ∃ cfg, LoadConfig envNegativeTTL = .ok cfg ∧ cfg.TTL = -5 ∧ ¬ (0 ≤ cfg.TTL) :=
  ⟨{ HostedZoneID := "Z1", RecordName := "example.com", TTL := -5 }, rfl, rfl, by decide⟩

/-- C4 (amended): whenever `LoadConfig` returns a configuration, its TTL lies in
the `int64` range, and it is non-negative unless the `TTL` variable is set to a
text that begins with a minus sign. -/
theorem LoadConfig_TTL_int64 (env : Env) (cfg : Route32Config)
    (h : LoadConfig env = .ok cfg) :
    -9223372036854775808 ≤ cfg.TTL ∧ cfg.TTL ≤ 9223372036854775807 ∧
      ((∀ v, env "TTL" = some v → v.data.head? ≠ some '-') → 0 ≤ cfg.TTL) := by
  obtain ⟨text, h1, h2, _, _⟩ := (LoadConfig_ok_iff env cfg).mp h
  obtain ⟨_, hlo, hhi, hpos⟩ := ParseInt_ok text cfg.TTL h2
  refine ⟨hlo, hhi, fun hv => hpos ?_⟩
  cases ht : env "TTL" with
  | some v =>
    rw [getEnv_of_present env "TTL" "60" v ht] at h1
    have hvt : v = text := Except.ok.inj h1
    subst hvt
    exact hv v ht
  | none =>
    rw [getEnv_of_absent env "TTL" "60" ht (by decide)] at h1
    cases h1
    decide

theorem LoadConfig_TTL_int64_witness :
    LoadConfig envNegativeTTL = .ok { HostedZoneID := "Z1", RecordName := "example.com", TTL := -5 } ∧
      (-9223372036854775808 ≤ (-5 : Int) ∧ (-5 : Int) ≤ 9223372036854775807 ∧
        ((∀ v, envNegativeTTL "TTL" = some v → v.data.head? ≠ some '-') → 0 ≤ (-5 : Int))) :=
  ⟨rfl, LoadConfig_TTL_int64 envNegativeTTL
    { HostedZoneID := "Z1", RecordName := "example.com", TTL := -5 } rfl⟩

/-- C5: when `HOSTED_ZONE_ID` and `RECORD_NAME` are present and non-empty and
`TTL` is absent, `LoadConfig` succeeds with TTL 60 and the two values. -/
theorem LoadConfig_default_TTL (env : Env) (zone name : String)
    (hz : env "HOSTED_ZONE_ID" = some zone) (_hzne : zone ≠ "")
    (hr : env "RECORD_NAME" = some name) (_hrne : name ≠ "")
    (ht : env "TTL" = none) :
    LoadConfig env = .ok { HostedZoneID := zone, RecordName := name, TTL := 60 } := by
  have hp : ParseInt "60" = (60, none) := by decide
  refine (LoadConfig_ok_iff env _).mpr ⟨"60", ?_, hp, ?_, ?_⟩
  · exact getEnv_of_absent env "TTL" "60" ht (by decide)
  · exact getEnv_of_present env "HOSTED_ZONE_ID" "" zone hz
  · exact getEnv_of_present env "RECORD_NAME" "" name hr

theorem LoadConfig_default_TTL_witness :
    LoadConfig envDefaultTTL = .ok { HostedZoneID := "Z1", RecordName := "example.com", TTL := 60 } :=
  LoadConfig_default_TTL envDefaultTTL "Z1" "example.com" rfl (by decide) rfl (by decide) rfl

/-- C6: when `TTL` is present with a value that is not an optional sign followed
by one or more decimal digits, `LoadConfig` panics with the `NumError` of
`ParseInt` and returns no configuration, whatever the other variables hold. -/
theorem LoadConfig_malformed_TTL (env : Env) (v : String)
    (ht : env "TTL" = some v) (hv : isBase10Integer v = false) :
    (∃ e, LoadConfig env = .error (.numError e)) ∧ ∀ cfg, LoadConfig env ≠ .ok cfg := by
  have hg : getEnv env "TTL" "60" = .ok v := getEnv_of_present env "TTL" "60" v ht
  rcases hp : ParseInt v with ⟨n, err⟩
  cases err with
  | none =>
    have := (ParseInt_ok v n hp).1
    rw [hv] at this
    exact absurd this (by decide)
  | some e =>
    have hl : LoadConfig env = .error (.numError e) := by
      simp only [LoadConfig, hg, hp]
    exact ⟨⟨e, hl⟩, fun cfg hc => by rw [hl] at hc; cases hc⟩

theorem LoadConfig_malformed_TTL_witness :
    (∃ e, LoadConfig envBadTTL = .error (.numError e)) ∧ ∀ cfg, LoadConfig envBadTTL ≠ .ok cfg :=
  LoadConfig_malformed_TTL envBadTTL "1h" rfl (by decide)

/-! ## `getLocalIP` -/

/-- One turn of the loop: a usable element is returned as text, any other is
skipped. -/
theorem getLocalIP.loop_cons (other : IP → String) (a : Addr) (as : List Addr) :
    getLocalIP.loop other (a :: as) =
      if usable a = true then .ok (addrText other a) else getLocalIP.loop other as := by
  cases a with
  | IPNet n =>
    simp only [getLocalIP.loop, usable, addrText]
    cases IP.IsLoopback n.IP <;> cases (IP.To4 n.IP).isSome <;> simp
  | IPAddr x => simp [getLocalIP.loop, usable]

theorem getLocalIP.loop_ok_iff (other : IP → String) (s : String) : ∀ addrs : List Addr,
    getLocalIP.loop other addrs = .ok s ↔
      ∃ pre a post, addrs = pre ++ a :: post ∧ (∀ b ∈ pre, usable b = false) ∧
        usable a = true ∧ s = addrText other a := by
  intro addrs
  induction addrs with
  | nil =>
    constructor
    · intro h
      simp [getLocalIP.loop] at h
    · rintro ⟨pre, a, post, h, _⟩
      cases pre <;> simp at h
  | cons x xs ih =>
    rw [getLocalIP.loop_cons]
    by_cases hx : usable x = true
    · rw [if_pos hx]
      constructor
      · intro h
        exact ⟨[], x, xs, rfl, by simp, hx, (Except.ok.inj h).symm⟩
      · rintro ⟨pre, a, post, h, hpre, _, hs⟩
        cases pre with
        | nil =>
          simp only [List.nil_append, List.cons.injEq] at h
          rw [hs, ← h.1]
        | cons y ys =>
          simp only [List.cons_append, List.cons.injEq] at h
          have := hpre y (by simp)
          rw [← h.1, hx] at this
          exact absurd this (by decide)
    · rw [if_neg hx, ih]
      constructor
      · rintro ⟨pre, a, post, h, hpre, ha, hs⟩
        refine ⟨x :: pre, a, post, by simp [h], ?_, ha, hs⟩
        intro b hb
        rcases List.mem_cons.mp hb with rfl | hb
        · simpa using hx
        · exact hpre b hb
      · rintro ⟨pre, a, post, h, hpre, ha, hs⟩
        cases pre with
        | nil =>
          simp only [List.nil_append, List.cons.injEq] at h
          rw [h.1] at hx
          exact absurd ha hx
        | cons y ys =>
          simp only [List.cons_append, List.cons.injEq] at h
          exact ⟨ys, a, post, h.2, fun b hb => hpre b (by simp [hb]), ha, hs⟩

theorem getLocalIP.loop_error_iff (other : IP → String) (e : String) : ∀ addrs : List Addr,
    getLocalIP.loop other addrs = .error e ↔
      e = "unable to determine local IP" ∧ ∀ a ∈ addrs, usable a = false := by
  intro addrs
  induction addrs with
  | nil =>
    simp only [getLocalIP.loop, Except.error.injEq, List.not_mem_nil, false_implies,
      implies_true, and_true]
    exact eq_comm
  | cons x xs ih =>
    rw [getLocalIP.loop_cons]
    by_cases hx : usable x = true
    · rw [if_pos hx]
      constructor
      · intro h
        cases h
      · rintro ⟨_, h⟩
        have := h x (by simp)
        rw [hx] at this
        exact absurd this (by decide)
    · rw [if_neg hx, ih]
      have hx2 : usable x = false := by simpa using hx
      simp [hx2]

/-- C7: when the host enumerates its interface addresses without error,
`getLocalIP` returns text `s` exactly when `s` is the textual form of the first
element, in enumeration order, that is an IP network address representable as
IPv4 and not loopback (every earlier element fails the test); it does return
such a text whenever some element passes the test; and it returns the error
`unable to determine local IP` exactly when no element passes. -/
theorem getLocalIP_first_usable (w : World) (addrs : List Addr)
    (h : w.InterfaceAddrs = .ok addrs) :
    (∀ s, (getLocalIP w).2 = .ok s ↔
      ∃ pre a post, addrs = pre ++ a :: post ∧ (∀ b ∈ pre, usable b = false) ∧
        usable a = true ∧ s = addrText w.ipText a) ∧
    ((∃ a ∈ addrs, usable a = true) → ∃ s, (getLocalIP w).2 = .ok s) ∧
    ((getLocalIP w).2 = .error "unable to determine local IP" ↔
      ∀ a ∈ addrs, usable a = false) := by
  have hg : (getLocalIP w).2 = getLocalIP.loop w.ipText addrs := by
    simp [getLocalIP, h]
  rw [hg]
  refine ⟨fun s => getLocalIP.loop_ok_iff w.ipText s addrs, ?_, ?_⟩
  · rintro ⟨a, ha, hu⟩
    cases hl : getLocalIP.loop w.ipText addrs with
    | ok s => exact ⟨s, rfl⟩
    | error e =>
      have := ((getLocalIP.loop_error_iff w.ipText e addrs).mp hl).2 a ha
      rw [hu] at this
      exact absurd this (by decide)
  · rw [getLocalIP.loop_error_iff]
    simp

theorem getLocalIP_first_usable_witness :
    (getLocalIP loopbackOnlyWorld).2 = .error "unable to determine local IP" :=
  (getLocalIP_first_usable loopbackOnlyWorld loopbackOnlyAddrs rfl).2.2.mpr (by decide)

/-! ## `updateRoute53Record` -/

theorem providerCalls_append (xs ys : List Event) :
    providerCalls (xs ++ ys) = providerCalls xs ++ providerCalls ys := by
  induction xs with
  | nil => rfl
  | cons x xs ih => cases x <;> simp [providerCalls, ih]

theorem updateRoute53Record_of_session (w : World) (zone name ip : String) (ttl : Int)
    (h : w.NewSession = .ok ()) :
    updateRoute53Record w zone name ip ttl =
      ([.NewSession, .ChangeResourceRecordSets (updateRoute53Record.input zone name ip ttl)],
        .ok (w.ChangeResourceRecordSets (updateRoute53Record.input zone name ip ttl))) := by
  unfold updateRoute53Record
  rw [h]
  cases hc : w.ChangeResourceRecordSets (updateRoute53Record.input zone name ip ttl) <;> simp [hc]

/-- C8: once the session exists, `updateRoute53Record` issues exactly one
request; it targets the given zone and holds exactly one change, of action
UPSERT, whose record set has the given name, type A, the given TTL and exactly
one resource record, whose value is the given address. The request does not
depend on the world: a second run with the same four inputs issues the same one. -/
theorem updateRoute53Record_request (w w2 : World) (zone name ip : String) (ttl : Int)
    (h : w.NewSession = .ok ()) (h2 : w2.NewSession = .ok ()) :
    (∃ input batch change rrs rr,
      providerCalls (updateRoute53Record w zone name ip ttl).1 = [input] ∧
      input.HostedZoneId = some zone ∧ input.ChangeBatch = some batch ∧
      batch.Changes = [change] ∧ change.Action = some "UPSERT" ∧
      change.ResourceRecordSet = some rrs ∧ rrs.Name = some name ∧ rrs.Type_ = some "A" ∧
      rrs.TTL = some ttl ∧ rrs.ResourceRecords = [rr] ∧ rr.Value = some ip) ∧
    providerCalls (updateRoute53Record w2 zone name ip ttl).1 =
      providerCalls (updateRoute53Record w zone name ip ttl).1 := by
  rw [updateRoute53Record_of_session w zone name ip ttl h,
    updateRoute53Record_of_session w2 zone name ip ttl h2]
  refine ⟨⟨updateRoute53Record.input zone name ip ttl, _, _, _, _, rfl, rfl, rfl, rfl, rfl,
    rfl, rfl, rfl, rfl, rfl, rfl⟩, rfl⟩

theorem updateRoute53Record_request_witness :
    (∃ input batch change rrs rr,
      providerCalls (updateRoute53Record goodWorld "Z1" "example.com" "1.2.3.4" 60).1 = [input] ∧
      input.HostedZoneId = some "Z1" ∧ input.ChangeBatch = some batch ∧
      batch.Changes = [change] ∧ change.Action = some "UPSERT" ∧
      change.ResourceRecordSet = some rrs ∧ rrs.Name = some "example.com" ∧
      rrs.Type_ = some "A" ∧ rrs.TTL = some 60 ∧ rrs.ResourceRecords = [rr] ∧
      rr.Value = some "1.2.3.4") ∧
    providerCalls (updateRoute53Record rejectingWorld "Z1" "example.com" "1.2.3.4" 60).1 =
      providerCalls (updateRoute53Record goodWorld "Z1" "example.com" "1.2.3.4" 60).1 :=
  updateRoute53Record_request goodWorld rejectingWorld "Z1" "example.com" "1.2.3.4" 60 rfl rfl

/-! ## `main` -/

theorem getLocalIP_trace (w : World) : (getLocalIP w).1 = [.InterfaceAddrs] := by
  unfold getLocalIP
  cases w.InterfaceAddrs <;> rfl

/-- The five ways a run of `main` can go, with the trace and exit of each. -/
theorem main_cases (w : World) :
    (∃ p, LoadConfig w.env = .error p ∧ main w = ([], .panic p)) ∨
    (∃ cfg e, LoadConfig w.env = .ok cfg ∧ (getLocalIP w).2 = .error e ∧
      main w = ([.InterfaceAddrs, .LogFatalf ("Failed to get local IP: " ++ e)], .fatal)) ∨
    (∃ cfg ip e, LoadConfig w.env = .ok cfg ∧ (getLocalIP w).2 = .ok ip ∧
      w.NewSession = .error e ∧
      main w = ([.InterfaceAddrs, .LogPrintf ("Local IP: " ++ ip), .NewSession],
        .panic (.error e))) ∨
    (∃ cfg ip err, LoadConfig w.env = .ok cfg ∧ (getLocalIP w).2 = .ok ip ∧
      w.NewSession = .ok () ∧
      w.ChangeResourceRecordSets
        (updateRoute53Record.input cfg.HostedZoneID cfg.RecordName ip cfg.TTL) = some err ∧
      main w = ([.InterfaceAddrs, .LogPrintf ("Local IP: " ++ ip), .NewSession,
        .ChangeResourceRecordSets
          (updateRoute53Record.input cfg.HostedZoneID cfg.RecordName ip cfg.TTL),
        .LogFatalf ("Failed to update Route 53 DNS record: " ++ err)], .fatal)) ∨
    (∃ cfg ip, LoadConfig w.env = .ok cfg ∧ (getLocalIP w).2 = .ok ip ∧
      w.NewSession = .ok () ∧
      w.ChangeResourceRecordSets
        (updateRoute53Record.input cfg.HostedZoneID cfg.RecordName ip cfg.TTL) = none ∧
      main w = ([.InterfaceAddrs, .LogPrintf ("Local IP: " ++ ip), .NewSession,
        .ChangeResourceRecordSets
          (updateRoute53Record.input cfg.HostedZoneID cfg.RecordName ip cfg.TTL),
        .Stdout ("Successfully updated Route 53 DNS record for " ++ cfg.RecordName ++
          " to " ++ ip ++ " with TTL " ++ toString cfg.TTL ++ "\n")], .success)) := by
  cases hL : LoadConfig w.env with
  | error p =>
    left
    exact ⟨p, rfl, by simp [main, hL]⟩
  | ok cfg =>
    right
    rcases hg : getLocalIP w with ⟨t, r⟩
    have ht : t = [.InterfaceAddrs] := by
      have := getLocalIP_trace w
      rw [hg] at this
      exact this
    subst ht
    cases r with
    | error e =>
      left
      exact ⟨cfg, e, rfl, rfl, by simp [main, hL, hg]⟩
    | ok ip =>
      right
      cases hs : w.NewSession with
      | error e =>
        left
        exact ⟨cfg, ip, e, rfl, rfl, rfl, by simp [main, hL, hg, updateRoute53Record, hs]⟩
      | ok u =>
        right
        cases u
        cases hc : w.ChangeResourceRecordSets
            (updateRoute53Record.input cfg.HostedZoneID cfg.RecordName ip cfg.TTL) with
        | some err =>
          left
          exact ⟨cfg, ip, err, rfl, rfl, rfl, hc,
            by simp [main, hL, hg, updateRoute53Record, hs, hc]⟩
        | none =>
          right
          exact ⟨cfg, ip, rfl, rfl, rfl, hc,
            by simp [main, hL, hg, updateRoute53Record, hs, hc]⟩

/-- C9: in a run of `main` where a provider call was issued and the provider
answered it with an error, `updateRoute53Record` returned that error, the run
ended in failure (`log.Fatalf` with the error as its last action), exactly one
provider call was issued, and no line was printed on standard output. -/
theorem main_provider_error (w : World) (input : ChangeResourceRecordSetsInput) (err : String)
    (hcall : input ∈ providerCalls (main w).1)
    (herr : w.ChangeResourceRecordSets input = some err) :
    (∃ cfg ip, LoadConfig w.env = .ok cfg ∧ (getLocalIP w).2 = .ok ip ∧
      (updateRoute53Record w cfg.HostedZoneID cfg.RecordName ip cfg.TTL).2 = .ok (some err)) ∧
    (main w).2 = .fatal ∧
    (main w).1.getLast? = some (.LogFatalf ("Failed to update Route 53 DNS record: " ++ err)) ∧
    providerCalls (main w).1 = [input] ∧
    ∀ line, Event.Stdout line ∉ (main w).1 := by
  rcases main_cases w with ⟨p, _, hm⟩ | ⟨cfg, e, _, _, hm⟩ | ⟨cfg, ip, e, _, _, _, hm⟩ |
    ⟨cfg, ip, err2, hL, hg, hs, hc, hm⟩ | ⟨cfg, ip, hL, hg, hs, hc, hm⟩
  · rw [hm] at hcall
    simp [providerCalls] at hcall
  · rw [hm] at hcall
    simp [providerCalls] at hcall
  · rw [hm] at hcall
    simp [providerCalls] at hcall
  · rw [hm] at hcall ⊢
    simp only [providerCalls, List.mem_singleton] at hcall
    subst hcall
    rw [hc] at herr
    have he : err2 = err := Option.some.inj herr
    subst he
    refine ⟨⟨cfg, ip, hL, hg, ?_⟩, rfl, rfl, by simp [providerCalls], by simp⟩
    rw [updateRoute53Record_of_session w _ _ _ _ hs, hc]
  · rw [hm] at hcall
    simp only [providerCalls, List.mem_singleton] at hcall
    subst hcall
    rw [hc] at herr
    cases herr

theorem main_provider_error_witness :
    (∃ cfg ip, LoadConfig rejectingWorld.env = .ok cfg ∧
      (getLocalIP rejectingWorld).2 = .ok ip ∧
      (updateRoute53Record rejectingWorld cfg.HostedZoneID cfg.RecordName ip cfg.TTL).2 =
        .ok (some "AccessDenied")) ∧
    (main rejectingWorld).2 = .fatal ∧
    (main rejectingWorld).1.getLast? =
      some (.LogFatalf ("Failed to update Route 53 DNS record: " ++ "AccessDenied")) ∧
    providerCalls (main rejectingWorld).1 =
      [updateRoute53Record.input "Z1" "example.com" "192.168.1.7" 60] ∧
    ∀ line, Event.Stdout line ∉ (main rejectingWorld).1 :=
  main_provider_error rejectingWorld
    (updateRoute53Record.input "Z1" "example.com" "192.168.1.7" 60) "AccessDenied"
    (by decide) rfl

/-- C10: a run of `main` whose configuration loading fails panics with that
failure before any action: its trace is empty, so neither the interface-address
enumeration nor the provider call is performed; and a provider call appears
only in runs where both `LoadConfig` and `getLocalIP` succeeded. -/
theorem main_config_failure_before_network (w : World) :
    (∀ p, LoadConfig w.env = .error p →
      (main w).1 = [] ∧ (main w).2 = .panic p ∧ Event.InterfaceAddrs ∉ (main w).1 ∧
        providerCalls (main w).1 = []) ∧
    (∀ input, input ∈ providerCalls (main w).1 →
      ∃ cfg ip, LoadConfig w.env = .ok cfg ∧ (getLocalIP w).2 = .ok ip) := by
  constructor
  · intro p hp
    have hm : main w = ([], .panic p) := by simp [main, hp]
    rw [hm]
    exact ⟨rfl, rfl, by simp, rfl⟩
  · intro input hcall
    rcases main_cases w with ⟨p, _, hm⟩ | ⟨cfg, e, _, _, hm⟩ | ⟨cfg, ip, e, _, _, _, hm⟩ |
      ⟨cfg, ip, err2, hL, hg, _, _, _⟩ | ⟨cfg, ip, hL, hg, _, _, _⟩
    · rw [hm] at hcall
      simp [providerCalls] at hcall
    · rw [hm] at hcall
      simp [providerCalls] at hcall
    · rw [hm] at hcall
      simp [providerCalls] at hcall
    · exact ⟨cfg, ip, hL, hg⟩
    · exact ⟨cfg, ip, hL, hg⟩

theorem main_config_failure_before_network_witness :
    (main badConfigWorld).1 = [] ∧
      (main badConfigWorld).2 = .panic (.numError ⟨"ParseInt", "1h", .ErrSyntax⟩) ∧
      Event.InterfaceAddrs ∉ (main badConfigWorld).1 ∧
      providerCalls (main badConfigWorld).1 = [] :=
  (main_config_failure_before_network badConfigWorld).1
    (.numError ⟨"ParseInt", "1h", .ErrSyntax⟩) rfl

/-! ## Evaluations on concrete inputs -/

theorem ParseInt_samples :
    ParseInt "60" = (60, none) ∧ ParseInt "-5" = (-5, none) ∧ ParseInt "+5" = (5, none) ∧
    ParseInt "" = (0, some ⟨"ParseInt", "", .ErrSyntax⟩) ∧
    ParseInt "1h" = (0, some ⟨"ParseInt", "1h", .ErrSyntax⟩) ∧
    ParseInt "-" = (0, some ⟨"ParseInt", "-", .ErrSyntax⟩) ∧
    ParseInt "-9223372036854775808" = (-9223372036854775808, none) ∧
    ParseInt "9223372036854775808" =
      (9223372036854775807, some ⟨"ParseInt", "9223372036854775808", .ErrRange⟩) ∧
    ParseInt "-9223372036854775809" =
      (-9223372036854775808, some ⟨"ParseInt", "-9223372036854775809", .ErrRange⟩) ∧
    ParseInt "99999999999999999999999" =
      (9223372036854775807, some ⟨"ParseInt", "99999999999999999999999", .ErrRange⟩) := by
  decide

theorem LoadConfig_samples :
    LoadConfig envDefaultTTL = .ok ⟨"Z1", "example.com", 60⟩ ∧
    LoadConfig envEmptyZone = .ok ⟨"", "example.com", 60⟩ ∧
    LoadConfig envEmptyTTL = .error (.numError ⟨"ParseInt", "", .ErrSyntax⟩) ∧
    LoadConfig (envOf [("RECORD_NAME", "example.com")]) =
      .error (.error "missing mandatory env HOSTED_ZONE_ID") ∧
    LoadConfig (envOf [("HOSTED_ZONE_ID", "Z1")]) =
      .error (.error "missing mandatory env RECORD_NAME") :=
  ⟨rfl, rfl, rfl, rfl, rfl⟩

theorem getLocalIP_samples :
    (getLocalIP goodWorld).2 = .ok "192.168.1.7" ∧
    getLocalIP.loop (fun _ => "?")
      [.IPAddr ⟨[10, 0, 0, 9], ""⟩,
       .IPNet ⟨[0, 0, 0, 0, 0, 0, 0, 0, 0, 0, 255, 255, 1, 2, 3, 4], []⟩] = .ok "1.2.3.4" ∧
    (getLocalIP { goodWorld with InterfaceAddrs := .error "route ip+net: no such device" }).2 =
      .error "route ip+net: no such device" :=
  ⟨rfl, rfl, rfl⟩

theorem main_samples :
    main goodWorld =
      ([.InterfaceAddrs, .LogPrintf "Local IP: 192.168.1.7", .NewSession,
        .ChangeResourceRecordSets (updateRoute53Record.input "Z1" "example.com" "192.168.1.7" 60),
        .Stdout "Successfully updated Route 53 DNS record for example.com to 192.168.1.7 with TTL 60\n"],
        .success) ∧
    main loopbackOnlyWorld =
      ([.InterfaceAddrs, .LogFatalf "Failed to get local IP: unable to determine local IP"],
        .fatal) :=
  ⟨rfl, rfl⟩

end Route53Updater
